import Mathlib

/-!
Shallow embedding of the chemical-inventory tracker and the GPM flow-rate
calculator (sources: src/types/chemical.ts, src/components/ChemicalInventory.tsx,
src/components/InventoryTable.tsx, src/components/GPMCalculator.tsx).
JS numbers are modelled as exact rationals, millisecond timestamps as integers,
and the ambient identifier generator (Date.now().toString()) as an explicit
freshId argument threaded through each mutation.
-/

/-- Unit enumeration of a chemical lot (src/types/chemical.ts, field unit). -/
inductive ChemUnit
  | liters
  | kilograms
deriving DecidableEq

/-- Rendering of the unit enumeration as it appears in the source string union. -/
def ChemUnit.str : ChemUnit → String
  | .liters => "Liters"
  | .kilograms => "Kilograms"

/-- The Chemical record (src/types/chemical.ts). -/
structure Chemical where
  id : String
  dateReceived : String
  name : String
  quantity : ℚ
  unit : ChemUnit
  supplier : String
  expiryDate : String
  storageLocation : String
  remarks : Option String
  currentBalance : ℚ
deriving DecidableEq

/-- The ChemicalUsage record (src/types/chemical.ts). -/
structure ChemicalUsage where
  id : String
  chemicalId : String
  chemicalName : String
  quantityUsed : ℚ
  dateUsed : String
  personInCharge : String
  remarks : Option String
deriving DecidableEq

/-- Input of addChemical: a Chemical without id and currentBalance. -/
structure ChemicalInput where
  dateReceived : String
  name : String
  quantity : ℚ
  unit : ChemUnit
  supplier : String
  expiryDate : String
  storageLocation : String
  remarks : Option String
deriving DecidableEq

/-- Input of updateInventory: a ChemicalUsage without id. -/
structure UsageInput where
  chemicalId : String
  chemicalName : String
  quantityUsed : ℚ
  dateUsed : String
  personInCharge : String
  remarks : Option String
deriving DecidableEq

/-- The filterBy union of src/types/chemical.ts. -/
inductive FilterMode
  | byName
  | byDate
  | byLocation
deriving DecidableEq

/-- The ChemicalInventoryState record (src/types/chemical.ts). -/
structure ChemicalInventoryState where
  chemicals : List Chemical
  usageHistory : List ChemicalUsage
  searchTerm : String
  filterBy : FilterMode
  isDarkMode : Bool
deriving DecidableEq

/-- The initial useState value of ChemicalInventory.tsx. -/
def initialState : ChemicalInventoryState :=
  { chemicals := [], usageHistory := [], searchTerm := "", filterBy := .byName,
    isDarkMode := false }

/-- addChemical (ChemicalInventory.tsx, lines 58-72): spread the input, assign the
fresh id, set currentBalance to quantity, and append to the chemicals list. -/
def addChemical (st : ChemicalInventoryState) (input : ChemicalInput)
    (freshId : String) : ChemicalInventoryState :=
  { st with chemicals := st.chemicals ++
      [{ id := freshId, dateReceived := input.dateReceived, name := input.name,
         quantity := input.quantity, unit := input.unit, supplier := input.supplier,
         expiryDate := input.expiryDate, storageLocation := input.storageLocation,
         remarks := input.remarks, currentBalance := input.quantity }] }

/-- The usage event built by updateInventory: the input spread plus the fresh id. -/
def mkUsage (u : UsageInput) (freshId : String) : ChemicalUsage :=
  { id := freshId, chemicalId := u.chemicalId, chemicalName := u.chemicalName,
    quantityUsed := u.quantityUsed, dateUsed := u.dateUsed,
    personInCharge := u.personInCharge, remarks := u.remarks }

/-- The per-lot update performed by updateInventory's map over chemicals
(ChemicalInventory.tsx, lines 83-87). -/
def applyUsage (u : UsageInput) (c : Chemical) : Chemical :=
  if c.id = u.chemicalId then
    { c with currentBalance := max 0 (c.currentBalance - u.quantityUsed) }
  else c

/-- updateInventory (ChemicalInventory.tsx, lines 74-94): append the new usage
event to the history and map the balance update over the chemicals list. -/
def updateInventory (st : ChemicalInventoryState) (u : UsageInput)
    (freshId : String) : ChemicalInventoryState :=
  { st with
    usageHistory := st.usageHistory ++ [mkUsage u freshId],
    chemicals := st.chemicals.map (applyUsage u) }

/-- An operation of the Mutation Engine, carrying the ambient fresh id. -/
inductive InvOp
  | add (input : ChemicalInput) (freshId : String)
  | use (u : UsageInput) (freshId : String)

/-- Apply one Mutation Engine operation to the state. -/
def applyOp (st : ChemicalInventoryState) : InvOp → ChemicalInventoryState
  | .add input freshId => addChemical st input freshId
  | .use u freshId => updateInventory st u freshId

/-- Run a sequence of Mutation Engine operations from the initial (empty) state. -/
def runOps (ops : List InvOp) : ChemicalInventoryState :=
  ops.foldl applyOp initialState

/-- Validity of an operation per the data model: added lots carry a positive
quantity, usage events carry a positive quantityUsed. -/
def opValid : InvOp → Bool
  | .add input _ => decide (0 < input.quantity)
  | .use u _ => decide (0 < u.quantityUsed)

/-- The balance invariant: every lot in the collection has
0 ≤ currentBalance ≤ quantity. -/
def stateInv (st : ChemicalInventoryState) : Prop :=
  ∀ c ∈ st.chemicals, 0 ≤ c.currentBalance ∧ c.currentBalance ≤ c.quantity

lemma stateInv_applyOp (st : ChemicalInventoryState) (op : InvOp)
    (h : stateInv st) (hv : opValid op = true) : stateInv (applyOp st op) := by
  cases op with
  | add input freshId =>
      simp only [opValid, decide_eq_true_eq] at hv
      intro c hc
      simp only [applyOp, addChemical, List.mem_append, List.mem_singleton] at hc
      rcases hc with hc | hc
      · exact h c hc
      · subst hc; exact ⟨le_of_lt hv, le_refl _⟩
  | use u freshId =>
      simp only [opValid, decide_eq_true_eq] at hv
      intro c hc
      simp only [applyOp, updateInventory, List.mem_map] at hc
      obtain ⟨c0, hc0, rfl⟩ := hc
      obtain ⟨h0, h1⟩ := h c0 hc0
      unfold applyUsage
      split
      · constructor
        · exact le_max_left 0 _
        · simp only [max_le_iff]
          constructor
          · linarith
          · linarith
      · exact ⟨h0, h1⟩

lemma stateInv_foldl (ops : List InvOp) : ∀ st : ChemicalInventoryState,
    stateInv st → (∀ op ∈ ops, opValid op = true) →
    stateInv (ops.foldl applyOp st) := by
  induction ops with
  | nil => intro st h _; exact h
  | cons op rest ih =>
      intro st h hv
      simp only [List.foldl_cons]
      exact ih (applyOp st op)
        (stateInv_applyOp st op h (hv op (List.mem_cons_self op rest)))
        (fun o ho => hv o (List.mem_cons_of_mem op ho))

/-! ### Derivation Engine (src/components/InventoryTable.tsx) -/

/-- JS String.prototype.includes — the needle occurs contiguously in the hay. -/
def jsIncludes (hay needle : String) : Bool :=
  decide (needle.toList <:+: hay.toList)

/-- The filter predicate of filteredChemicals (InventoryTable.tsx, lines 29-42):
an empty search term passes everything; otherwise the match depends on filterBy.
Name and location matches lowercase both sides; date matches are case-sensitive
against dateReceived or expiryDate. -/
def chemicalPasses (searchTerm : String) (filterBy : FilterMode)
    (c : Chemical) : Bool :=
  if searchTerm = "" then true
  else
    match filterBy with
    | .byName => jsIncludes c.name.toLower searchTerm.toLower
    | .byDate => jsIncludes c.dateReceived searchTerm || jsIncludes c.expiryDate searchTerm
    | .byLocation => jsIncludes c.storageLocation.toLower searchTerm.toLower

/-- filteredChemicals: the chemicals list restricted to the filter predicate. -/
def filteredChemicals (searchTerm : String) (filterBy : FilterMode)
    (chemicals : List Chemical) : List Chemical :=
  chemicals.filter (chemicalPasses searchTerm filterBy)

/-- The sortable columns offered by handleSort (InventoryTable.tsx). -/
inductive SortKey
  | name
  | currentBalance
  | expiryDate
  | storageLocation
deriving DecidableEq

/-- The sortOrder union of InventoryTable.tsx. -/
inductive SortDir
  | asc
  | desc
deriving DecidableEq

/-- The body of the sort comparator (InventoryTable.tsx, lines 44-51) on one
pair of field values: aValue < bValue gives -1 for ascending and 1 for
descending, aValue > bValue the reverse, equal values give 0. -/
def cmpDir {β : Type} [LinearOrder β] (dir : SortDir) (x y : β) : Int :=
  if x < y then (match dir with | .asc => -1 | .desc => 1)
  else if y < x then (match dir with | .asc => 1 | .desc => -1)
  else 0

/-- The comparator passed to sort, selecting the field named by sortBy. -/
def chemComparator (key : SortKey) (dir : SortDir) (a b : Chemical) : Int :=
  match key with
  | .name => cmpDir dir a.name b.name
  | .currentBalance => cmpDir dir a.currentBalance b.currentBalance
  | .expiryDate => cmpDir dir a.expiryDate b.expiryDate
  | .storageLocation => cmpDir dir a.storageLocation b.storageLocation

/-- The non-strict order induced by the comparator: a sorts no later than b
exactly when the comparator is non-positive. -/
def sortLe (key : SortKey) (dir : SortDir) (a b : Chemical) : Bool :=
  decide (chemComparator key dir a b ≤ 0)

/-- sortedChemicals (InventoryTable.tsx, lines 44-51). ECMAScript sort is stable
and, with a consistent comparator, produces the unique stable sorted
permutation; it is therefore modelled by the stable mergeSort under the order
induced by the comparator. -/
def sortedChemicals (key : SortKey) (dir : SortDir)
    (l : List Chemical) : List Chemical :=
  l.mergeSort (sortLe key dir)

/-- isLowStock (InventoryTable.tsx, lines 62-64). -/
def isLowStock (c : Chemical) : Bool :=
  decide (c.currentBalance ≤ c.quantity * (0.1 : ℚ))

/-- isNearExpiry (InventoryTable.tsx, lines 66-71), at the level of millisecond
timestamps: the expiry instant is no later than now plus 30 days of
milliseconds. -/
def isNearExpiry (todayMs expiryMs : ℤ) : Bool :=
  decide (expiryMs ≤ todayMs + 30 * 24 * 60 * 60 * 1000)

/-! ### Flow Calculation (src/components/GPMCalculator.tsx) -/

/-- Number(x.toFixed(2)): rounding to two decimal places. ECMAScript toFixed
picks the integer n with n / 100 closest to the value, the larger n on a tie,
which is the floor of the scaled value plus one half. -/
def jsToFixed2Num (q : ℚ) : ℚ :=
  ((q * 100 + 1 / 2).floor : ℚ) / 100

/-- The GPM calculation effect (GPMCalculator.tsx, lines 50-58): zero elapsed
time gives 0, otherwise (1 / (time/100)) * 3600 * 4.4 rounded to 2 decimals.
time counts centiseconds. -/
def computeGPM (time : ℕ) : ℚ :=
  if time > 0 then jsToFixed2Num ((1 / ((time : ℚ) / 100)) * 3600 * (4.4 : ℚ))
  else 0

/-- The FlowReading record (GPMCalculator.tsx, lines 13-22). -/
structure FlowReading where
  id : String
  timestamp : String
  duration : ℚ
  gpm : ℚ
  operatorName : String
  deepwell9 : ℚ
  deepwell10 : ℚ
  notes : Option String
deriving DecidableEq

/-- The document written to the adminReports collection by sendToAdmin. -/
structure AdminReport where
  timestamp : String
  flowReadings : List FlowReading
  totalReadings : ℕ
  averageGPM : ℚ
deriving DecidableEq

/-- sendToAdmin (GPMCalculator.tsx, lines 179-203): the aggregate report, whose
averageGPM is the reduce-sum of gpm values divided by the count when the log is
non-empty and 0 otherwise. -/
def sendToAdminReport (ts : String) (flowLog : List FlowReading) : AdminReport :=
  { timestamp := ts, flowReadings := flowLog, totalReadings := flowLog.length,
    averageGPM :=
      if flowLog.length > 0 then
        (flowLog.foldl (fun sum r => sum + r.gpm) 0) / (flowLog.length : ℚ)
      else 0 }

/-! ### Export Formatter (src/utils/exportUtils.ts, the file paired with
src/types/chemical.ts) -/

/-- JS Array.prototype.join with the given separator. -/
def joinSep (sep : String) : List String → String
  | [] => ""
  | [x] => x
  | x :: y :: xs => x ++ sep ++ joinSep sep (y :: xs)

/-- Leading-zero padding used to render a fraction part of fixed width. -/
def padLeftZeros (k : ℕ) (s : String) : String :=
  String.mk (List.replicate (k - s.length) ('0' : Char)) ++ s

/-- The least k with den dividing 10 ^ k, when one exists below the bound. -/
def pow10Exp (d : ℕ) : Option ℕ :=
  (List.range (d + 1)).find? (fun k => decide (10 ^ k % d = 0))

/-- JS Number.prototype.toString on the rational value of a number: the minimal
decimal rendering. Every JS number is a binary fraction, so its denominator
divides a power of ten and the fallback branch is unreachable for values a JS
number can hold. -/
def jsNumToString (q : ℚ) : String :=
  match pow10Exp q.den with
  | some k =>
      (if q.num < 0 then "-" else "") ++
        toString (q.num.natAbs * ((10 ^ k) / q.den) / 10 ^ k) ++
        (if k = 0 then "" else
          "." ++ padLeftZeros k (toString (q.num.natAbs * ((10 ^ k) / q.den) % 10 ^ k)))
  | none => toString q.num ++ "/" ++ toString q.den

/-- Rendering with exactly two decimal places, as the spec's words
"formatted to 2 decimals" dictate (x.toFixed(2)). -/
def toFixed2 (q : ℚ) : String :=
  (if (q * 100 + 1 / 2).floor < 0 then "-" else "") ++
    toString ((q * 100 + 1 / 2).floor.natAbs / 100) ++ "." ++
    padLeftZeros 2 (toString ((q * 100 + 1 / 2).floor.natAbs % 100))

/-- Surrounding quoting applied to every exported cell. -/
def quoteCell (s : String) : String :=
  "\"" ++ s ++ "\""

/-- A CSV row: each cell quoted, then joined with commas. -/
def csvRow (cells : List String) : String :=
  joinSep "," (cells.map quoteCell)

/-- The chemicalHeaders list of exportToExcel. -/
def chemicalHeaders : List String :=
  ["Chemical Name", "Current Balance", "Unit", "Original Quantity", "Supplier",
    "Date Received", "Expiry Date", "Storage Location", "Remarks"]

/-- One chemical row of exportToExcel: name, balance via toString, unit,
quantity via toString, supplier, dates, location, remarks or empty. -/
def chemicalCells (c : Chemical) : List String :=
  [c.name, jsNumToString c.currentBalance, c.unit.str, jsNumToString c.quantity,
    c.supplier, c.dateReceived, c.expiryDate, c.storageLocation,
    c.remarks.getD ("")]

/-- The usageHeaders list of exportToExcel. -/
def usageHeaders : List String :=
  ["Chemical Name", "Quantity Used", "Date Used", "Person In Charge", "Remarks"]

/-- One usage row of exportToExcel. -/
def usageCells (u : ChemicalUsage) : List String :=
  [u.chemicalName, jsNumToString u.quantityUsed, u.dateUsed, u.personInCharge,
    u.remarks.getD ("")]

/-- The chemicals section: header line then one quoted row per chemical. -/
def chemicalCSV (chemicals : List Chemical) : String :=
  joinSep "\n" (joinSep "," chemicalHeaders ::
    chemicals.map (fun c => csvRow (chemicalCells c)))

/-- The usage section: header line then one quoted row per usage event. -/
def usageCSV (usageHistory : List ChemicalUsage) : String :=
  joinSep "\n" (joinSep "," usageHeaders ::
    usageHistory.map (fun u => csvRow (usageCells u)))

/-- ExportUtils.exportToExcel (the document text): title, generation line,
blank, inventory section, blank, usage section. genTime stands for the ambient
new Date().toLocaleString(). -/
def exportToExcel (genTime : String) (chemicals : List Chemical)
    (usageHistory : List ChemicalUsage) : String :=
  joinSep "\n"
    ["CHEMICAL INVENTORY REPORT",
      "Generated on: " ++ genTime,
      "",
      "CURRENT INVENTORY:",
      chemicalCSV chemicals,
      "",
      "USAGE HISTORY:",
      usageCSV usageHistory]

/-- The chemical row the claim describes, with the current balance formatted to
2 decimals; stated from the spec's words, to be compared with the source. -/
def claimedChemicalCells (c : Chemical) : List String :=
  [c.name, toFixed2 c.currentBalance, c.unit.str, jsNumToString c.quantity,
    c.supplier, c.dateReceived, c.expiryDate, c.storageLocation,
    c.remarks.getD ("")]

/-- The flat line list the claim describes the export document to be. -/
def claimedExportLines (genTime : String) (chemicals : List Chemical)
    (usageHistory : List ChemicalUsage) : List String :=
  ["CHEMICAL INVENTORY REPORT", "Generated on: " ++ genTime, "",
    "CURRENT INVENTORY:", joinSep "," chemicalHeaders] ++
    chemicals.map (fun c => csvRow (claimedChemicalCells c)) ++
    ["", "USAGE HISTORY:", joinSep "," usageHeaders] ++
    usageHistory.map (fun u => csvRow (usageCells u))

/-- The flat line list with the balance rendered as the source renders it
(toString, not toFixed(2)): the amended description of the document. -/
def amendedExportLines (genTime : String) (chemicals : List Chemical)
    (usageHistory : List ChemicalUsage) : List String :=
  ["CHEMICAL INVENTORY REPORT", "Generated on: " ++ genTime, "",
    "CURRENT INVENTORY:", joinSep "," chemicalHeaders] ++
    chemicals.map (fun c => csvRow (chemicalCells c)) ++
    ["", "USAGE HISTORY:", joinSep "," usageHeaders] ++
    usageHistory.map (fun u => csvRow (usageCells u))

/-! ### Helper lemmas -/

lemma cmpDir_asc_nonpos {β : Type} [LinearOrder β] (x y : β) :
    cmpDir SortDir.asc x y ≤ 0 ↔ x ≤ y := by
  unfold cmpDir
  split_ifs with h1 h2
  · exact iff_of_true (by decide) (le_of_lt h1)
  · exact iff_of_false (by decide) (not_le.mpr h2)
  · exact iff_of_true (by decide) (le_of_not_lt h2)

lemma cmpDir_desc_nonpos {β : Type} [LinearOrder β] (x y : β) :
    cmpDir SortDir.desc x y ≤ 0 ↔ y ≤ x := by
  unfold cmpDir
  split_ifs with h1 h2
  · exact iff_of_false (by decide) (not_le.mpr h1)
  · exact iff_of_true (by decide) (le_of_lt h2)
  · exact iff_of_true (by decide) (le_of_not_lt h1)

lemma sortLe_trans (key : SortKey) (dir : SortDir) :
    ∀ a b c : Chemical, sortLe key dir a b → sortLe key dir b c →
      sortLe key dir a c := by
  intro a b c hab hbc
  simp only [sortLe, decide_eq_true_eq] at hab hbc ⊢
  cases key <;> cases dir <;>
    simp only [chemComparator, cmpDir_asc_nonpos, cmpDir_desc_nonpos]
      at hab hbc ⊢ <;>
    first
      | exact le_trans hab hbc
      | exact le_trans hbc hab

lemma sortLe_total (key : SortKey) (dir : SortDir) :
    ∀ a b : Chemical, sortLe key dir a b || sortLe key dir b a := by
  intro a b
  cases key <;> cases dir <;>
    simp only [sortLe, Bool.or_eq_true, decide_eq_true_eq, chemComparator,
      cmpDir_asc_nonpos, cmpDir_desc_nonpos] <;>
    exact le_total _ _

lemma map_eq_self_of_mem {α : Type} {f : α → α} (l : List α)
    (h : ∀ x ∈ l, f x = x) : l.map f = l := by
  induction l with
  | nil => rfl
  | cons x xs ih =>
      simp only [List.map_cons]
      rw [h x (List.mem_cons_self x xs),
        ih (fun a ha => h a (List.mem_cons_of_mem x ha))]

lemma joinSep_cons (sep x : String) (l : List String) (h : l ≠ []) :
    joinSep sep (x :: l) = x ++ sep ++ joinSep sep l := by
  cases l with
  | nil => exact absurd rfl h
  | cons y ys => rfl

lemma joinSep_append (sep : String) (l1 l2 : List String)
    (h1 : l1 ≠ []) (h2 : l2 ≠ []) :
    joinSep sep (l1 ++ l2) = joinSep sep l1 ++ sep ++ joinSep sep l2 := by
  induction l1 with
  | nil => exact absurd rfl h1
  | cons x xs ih =>
      cases xs with
      | nil =>
          cases l2 with
          | nil => exact absurd rfl h2
          | cons y ys => simp [joinSep_cons, joinSep]
      | cons y ys =>
          have hne : (y :: ys) ++ l2 ≠ [] := by simp
          rw [List.cons_append, joinSep_cons sep x _ hne, ih (by simp),
            joinSep_cons sep x (y :: ys) (by simp)]
          simp [String.append_assoc]

lemma joinSep_blocks (s a b c d e f h1 h2 : String) (m1 m2 : List String) :
    joinSep s [a, b, c, d, joinSep s (h1 :: m1), e, f, joinSep s (h2 :: m2)] =
      joinSep s ([a, b, c, d] ++ ((h1 :: m1) ++ ([e, f] ++ (h2 :: m2)))) := by
  rw [joinSep_append s [a, b, c, d] _ (by simp) (by simp),
    joinSep_append s (h1 :: m1) _ (by simp) (by simp),
    joinSep_append s [e, f] _ (by simp) (by simp)]
  simp [joinSep, String.append_assoc]

/-! ### Sample data for concrete instantiations -/

/-- A sample lot with id 1 and balance 5 of 10. -/
def sampleChemical : Chemical :=
  { id := "1", dateReceived := "2025-01-01", name := "Acid", quantity := 10,
    unit := .liters, supplier := "S", expiryDate := "2025-12-31",
    storageLocation := "A1", remarks := none, currentBalance := 5 }

/-- A second sample lot with id 2. -/
def otherChemical : Chemical :=
  { id := "2", dateReceived := "2025-01-02", name := "Base", quantity := 8,
    unit := .kilograms, supplier := "T", expiryDate := "2026-06-30",
    storageLocation := "B2", remarks := some "keep dry", currentBalance := 8 }

/-- A lot exactly on the low-stock boundary: balance 1 of quantity 10. -/
def boundaryChemical : Chemical :=
  { id := "3", dateReceived := "2025-01-03", name := "Salt", quantity := 10,
    unit := .kilograms, supplier := "U", expiryDate := "2027-01-01",
    storageLocation := "C3", remarks := none, currentBalance := 1 }

/-- A usage input referencing lot id 1. -/
def sampleUsage : UsageInput :=
  { chemicalId := "1", chemicalName := "Acid", quantityUsed := 3,
    dateUsed := "2025-02-01", personInCharge := "PIC", remarks := none }

/-- A state holding the two sample lots. -/
def sampleState : ChemicalInventoryState :=
  { initialState with chemicals := [sampleChemical, otherChemical] }

/-- A state holding only the lot that sampleUsage does not reference. -/
def missState : ChemicalInventoryState :=
  { initialState with chemicals := [otherChemical] }

/-- A sample add input with quantity 10. -/
def sampleInput : ChemicalInput :=
  { dateReceived := "2025-01-01", name := "Acid", quantity := 10,
    unit := .liters, supplier := "S", expiryDate := "2025-12-31",
    storageLocation := "A1", remarks := none }

/-- An add of quantity 10 followed by a usage of 3 against it. -/
def sampleOps : List InvOp :=
  [.add sampleInput "1", .use sampleUsage "2"]

/-- The lot produced by sampleOps: balance 7 of 10. -/
def resultChemical : Chemical :=
  { id := "1", dateReceived := "2025-01-01", name := "Acid", quantity := 10,
    unit := .liters, supplier := "S", expiryDate := "2025-12-31",
    storageLocation := "A1", remarks := none, currentBalance := 7 }

/-- A sample flow reading with gpm 12. -/
def sampleReading : FlowReading :=
  { id := "r1", timestamp := "2025-03-01T00:00:00Z", duration := 132,
    gpm := 12, operatorName := "Op", deepwell9 := 0, deepwell10 := 0,
    notes := none }

/-! ### Claim theorems -/

/-- C1: for every inventory state and usage input, recordUsage (updateInventory)
appends a usage event carrying the fresh identifier and the input's fields to
the usage history, and maps over the lots setting the referenced lot's
currentBalance to max(0, currentBalance - quantityUsed) while leaving the
others unchanged; when no lot's id equals the usage's chemicalId, the event is
still appended and the lots list is unchanged. -/
theorem recordUsage_spec (st : ChemicalInventoryState) (u : UsageInput)
    (freshId : String) :
    (updateInventory st u freshId).usageHistory = st.usageHistory ++
      [{ id := freshId, chemicalId := u.chemicalId,
         chemicalName := u.chemicalName, quantityUsed := u.quantityUsed,
         dateUsed := u.dateUsed, personInCharge := u.personInCharge,
         remarks := u.remarks }]
    ∧ (updateInventory st u freshId).chemicals = st.chemicals.map (applyUsage u)
    ∧ (∀ c : Chemical, c.id = u.chemicalId →
        (applyUsage u c).currentBalance =
          max 0 (c.currentBalance - u.quantityUsed))
    ∧ (∀ c : Chemical, c.id ≠ u.chemicalId → applyUsage u c = c)
    ∧ ((∀ c ∈ st.chemicals, c.id ≠ u.chemicalId) →
        (updateInventory st u freshId).chemicals = st.chemicals) := by
  refine ⟨rfl, rfl, ?_, ?_, ?_⟩
  · intro c h
    simp [applyUsage, h]
  · intro c h
    simp [applyUsage, h]
  · intro h
    show st.chemicals.map (applyUsage u) = st.chemicals
    exact map_eq_self_of_mem st.chemicals
      (fun c hc => by simp [applyUsage, h c hc])

theorem recordUsage_spec_witness :
    ((applyUsage sampleUsage sampleChemical).currentBalance =
      max 0 (sampleChemical.currentBalance - sampleUsage.quantityUsed))
    ∧ (applyUsage sampleUsage otherChemical = otherChemical)
    ∧ ((updateInventory missState sampleUsage ("9")).chemicals =
        missState.chemicals) :=
  ⟨(recordUsage_spec missState sampleUsage ("9")).2.2.1 sampleChemical
      (by decide),
    (recordUsage_spec missState sampleUsage ("9")).2.2.2.1 otherChemical
      (by decide),
    (recordUsage_spec missState sampleUsage ("9")).2.2.2.2 (by decide)⟩

/-- C9: recordUsage has a strict frame: the lots list keeps its length and
order, every lot whose id differs from the usage's chemicalId is unchanged,
every field of any lot other than currentBalance is unchanged, and the usage
history is the old history with the new event appended at the end. -/
theorem recordUsage_frame (st : ChemicalInventoryState) (u : UsageInput)
    (freshId : String) :
    (updateInventory st u freshId).chemicals.length = st.chemicals.length
    ∧ (∀ (i : ℕ) (h1 : i < st.chemicals.length)
        (h2 : i < (updateInventory st u freshId).chemicals.length),
        ((st.chemicals.get ⟨i, h1⟩).id ≠ u.chemicalId →
          (updateInventory st u freshId).chemicals.get ⟨i, h2⟩ =
            st.chemicals.get ⟨i, h1⟩)
        ∧ ((updateInventory st u freshId).chemicals.get ⟨i, h2⟩).id =
            (st.chemicals.get ⟨i, h1⟩).id
        ∧ ((updateInventory st u freshId).chemicals.get ⟨i, h2⟩).name =
            (st.chemicals.get ⟨i, h1⟩).name
        ∧ ((updateInventory st u freshId).chemicals.get ⟨i, h2⟩).quantity =
            (st.chemicals.get ⟨i, h1⟩).quantity
        ∧ ((updateInventory st u freshId).chemicals.get ⟨i, h2⟩).unit =
            (st.chemicals.get ⟨i, h1⟩).unit
        ∧ ((updateInventory st u freshId).chemicals.get ⟨i, h2⟩).supplier =
            (st.chemicals.get ⟨i, h1⟩).supplier
        ∧ ((updateInventory st u freshId).chemicals.get ⟨i, h2⟩).dateReceived =
            (st.chemicals.get ⟨i, h1⟩).dateReceived
        ∧ ((updateInventory st u freshId).chemicals.get ⟨i, h2⟩).expiryDate =
            (st.chemicals.get ⟨i, h1⟩).expiryDate
        ∧ ((updateInventory st u freshId).chemicals.get ⟨i, h2⟩).storageLocation =
            (st.chemicals.get ⟨i, h1⟩).storageLocation
        ∧ ((updateInventory st u freshId).chemicals.get ⟨i, h2⟩).remarks =
            (st.chemicals.get ⟨i, h1⟩).remarks)
    ∧ (updateInventory st u freshId).usageHistory =
        st.usageHistory ++ [mkUsage u freshId] := by
  refine ⟨by simp [updateInventory], ?_, rfl⟩
  intro i h1 h2
  have hm : (updateInventory st u freshId).chemicals.get ⟨i, h2⟩ =
      applyUsage u (st.chemicals.get ⟨i, h1⟩) := by
    simp [updateInventory]
  rw [hm]
  unfold applyUsage
  split
  · exact ⟨fun hne => absurd (by assumption) hne, rfl, rfl, rfl, rfl, rfl,
      rfl, rfl, rfl, rfl⟩
  · exact ⟨fun _ => rfl, rfl, rfl, rfl, rfl, rfl, rfl, rfl, rfl, rfl⟩

theorem recordUsage_frame_witness :
    (updateInventory sampleState sampleUsage ("9")).chemicals.get
      ⟨1, by decide⟩ = sampleState.chemicals.get ⟨1, by decide⟩ :=
  ((recordUsage_frame sampleState sampleUsage ("9")).2.1 1 (by decide)
    (by decide)).1 (by decide)

/-- C2: add appends a lot whose currentBalance is initialized to its quantity,
and for any sequence of add and recordUsage operations from the empty state in
which every added lot has positive quantity (per the data model) and every
usage has positive quantityUsed, every lot in the resulting collection
satisfies 0 ≤ currentBalance ≤ quantity. -/
theorem balance_invariant :
    (∀ (st : ChemicalInventoryState) (input : ChemicalInput) (freshId : String),
        (addChemical st input freshId).chemicals = st.chemicals ++
          [{ id := freshId, dateReceived := input.dateReceived,
             name := input.name, quantity := input.quantity,
             unit := input.unit, supplier := input.supplier,
             expiryDate := input.expiryDate,
             storageLocation := input.storageLocation,
             remarks := input.remarks, currentBalance := input.quantity }])
    ∧ ∀ ops : List InvOp, (∀ op ∈ ops, opValid op = true) →
        ∀ c ∈ (runOps ops).chemicals,
          0 ≤ c.currentBalance ∧ c.currentBalance ≤ c.quantity := by
  constructor
  · intro st input freshId
    rfl
  · intro ops hv
    exact stateInv_foldl ops initialState
      (by intro c hc; simp [initialState] at hc) hv

theorem balance_invariant_witness :
    0 ≤ resultChemical.currentBalance ∧
      resultChemical.currentBalance ≤ resultChemical.quantity :=
  balance_invariant.2 sampleOps (by decide) resultChemical (by
    simp [runOps, sampleOps, applyOp, addChemical, updateInventory, applyUsage,
      initialState, sampleInput, sampleUsage, resultChemical, mkUsage]
    norm_num)

/-- C3: with an empty search term every lot passes the filter; with a
non-empty term a lot passes iff, by mode: (by-name) the term is a
case-insensitive substring of its name, (by-date) the term is a case-sensitive
substring of its dateReceived or of its expiryDate, (by-location) the term is
a case-insensitive substring of its storageLocation. -/
theorem filter_spec (searchTerm : String) (filterBy : FilterMode)
    (c : Chemical) :
    (searchTerm = "" → chemicalPasses searchTerm filterBy c = true)
    ∧ (searchTerm ≠ "" →
        (chemicalPasses searchTerm filterBy c = true ↔
          match filterBy with
          | .byName =>
              searchTerm.toLower.toList <:+: c.name.toLower.toList
          | .byDate =>
              searchTerm.toList <:+: c.dateReceived.toList ∨
                searchTerm.toList <:+: c.expiryDate.toList
          | .byLocation =>
              searchTerm.toLower.toList <:+:
                c.storageLocation.toLower.toList)) := by
  constructor
  · intro h
    simp [chemicalPasses, h]
  · intro h
    cases filterBy with
    | byName => simp [chemicalPasses, h, jsIncludes]
    | byDate => simp [chemicalPasses, h, jsIncludes]
    | byLocation => simp [chemicalPasses, h, jsIncludes]

theorem filter_spec_witness :
    chemicalPasses ("") FilterMode.byName sampleChemical = true
    ∧ (chemicalPasses ("acid") FilterMode.byName sampleChemical = true ↔
        ("acid" : String).toLower.toList <:+:
          sampleChemical.name.toLower.toList) :=
  ⟨(filter_spec ("") FilterMode.byName sampleChemical).1 rfl,
    (filter_spec ("acid") FilterMode.byName sampleChemical).2 (by decide)⟩

/-- C5: a lot whose expiry instant is exactly 30 days (in milliseconds) after
the current instant is flagged near-expiry, one 31 days after is not, and in
general the flag holds iff expiry ≤ today + 30 days, inclusive. -/
theorem nearExpiry_spec (todayMs expiryMs : ℤ) :
    isNearExpiry todayMs (todayMs + 30 * 24 * 60 * 60 * 1000) = true
    ∧ isNearExpiry todayMs (todayMs + 31 * 24 * 60 * 60 * 1000) = false
    ∧ (isNearExpiry todayMs expiryMs = true ↔
        expiryMs ≤ todayMs + 30 * 24 * 60 * 60 * 1000) := by
  refine ⟨by simp [isNearExpiry], ?_, by simp [isNearExpiry]⟩
  simp only [isNearExpiry, decide_eq_false_iff_not, not_le]
  omega

/-- C6: a lot is low-stock iff currentBalance ≤ 0.1 * quantity, and the
boundary case currentBalance = 0.1 * quantity is classified low-stock. -/
theorem lowStock_spec (c : Chemical) :
    (isLowStock c = true ↔ c.currentBalance ≤ c.quantity * (0.1 : ℚ))
    ∧ (c.currentBalance = c.quantity * (0.1 : ℚ) → isLowStock c = true) := by
  constructor
  · simp [isLowStock]
  · intro h
    simp [isLowStock, h]

theorem lowStock_spec_witness : isLowStock boundaryChemical = true :=
  (lowStock_spec boundaryChemical).2 (by norm_num [boundaryChemical])

lemma rat_floor_eq_intFloor (q : ℚ) : q.floor = ⌊q⌋ := by
  rw [Rat.floor_def', Rat.floor_def]

/-- C7: the flow-rate computation gives 0 at elapsed time 0, 4.4 at 360000
centiseconds, 15840.0 at 100 centiseconds, and for any positive elapsed time
equals (1 / (centiseconds/100)) * 3600 * 4.4 rounded to 2 decimal places. -/
theorem gpm_formula_spec :
    computeGPM 0 = 0
    ∧ computeGPM 360000 = (4.4 : ℚ)
    ∧ computeGPM 100 = 15840
    ∧ ∀ t : ℕ, 0 < t →
        computeGPM t =
          jsToFixed2Num ((1 / ((t : ℚ) / 100)) * 3600 * (4.4 : ℚ)) := by
  refine ⟨rfl, ?_, ?_, ?_⟩
  · unfold computeGPM jsToFixed2Num
    rw [if_pos (by norm_num), rat_floor_eq_intFloor]
    norm_num
  · unfold computeGPM jsToFixed2Num
    rw [if_pos (by norm_num), rat_floor_eq_intFloor]
    norm_num
  · intro t ht
    simp [computeGPM, ht]

theorem gpm_formula_spec_witness :
    computeGPM 50 =
      jsToFixed2Num ((1 / (((50 : ℕ) : ℚ) / 100)) * 3600 * (4.4 : ℚ)) :=
  gpm_formula_spec.2.2.2 50 (by decide)

/-- C8: sorting is idempotent — applying the sort for any key and direction to
a list already sorted by that key and direction returns the same sequence. -/
theorem sort_idempotent (key : SortKey) (dir : SortDir) (l : List Chemical) :
    sortedChemicals key dir (sortedChemicals key dir l) =
      sortedChemicals key dir l :=
  List.mergeSort_of_sorted
    (List.sorted_mergeSort (sortLe_trans key dir) (sortLe_total key dir) l)

/-- C10: the admin report's averageGPM is 0 for an empty reading list and is
the sum of the gpm values divided by the count for a non-empty list, whose
count cast to the rationals is non-zero, so the division never has divisor 0. -/
theorem averageGPM_spec :
    (∀ ts : String, (sendToAdminReport ts []).averageGPM = 0)
    ∧ ∀ (ts : String) (flowLog : List FlowReading), flowLog ≠ [] →
        (sendToAdminReport ts flowLog).averageGPM =
          (flowLog.foldl (fun sum r => sum + r.gpm) 0) / (flowLog.length : ℚ)
        ∧ ((flowLog.length : ℚ) ≠ 0) := by
  constructor
  · intro ts
    rfl
  · intro ts flowLog h
    have hl : 0 < flowLog.length := List.length_pos.mpr h
    constructor
    · simp [sendToAdminReport, hl]
    · exact Nat.cast_ne_zero.mpr (by omega)

theorem averageGPM_spec_witness :
    ((sendToAdminReport ("a") [sampleReading]).averageGPM =
      ([sampleReading].foldl (fun sum r => sum + r.gpm) 0) /
        (([sampleReading] : List FlowReading).length : ℚ))
    ∧ ((([sampleReading] : List FlowReading).length : ℚ) ≠ 0) :=
  averageGPM_spec.2 ("a") [sampleReading] (by simp)

set_option maxRecDepth 8000

/-- C4 counterexample: for a lot whose balance is the whole number 5, the
export document renders the balance cell as "5" (toString), not "5.00", so the
document is not the claimed one whose balance cells are formatted to 2
decimals. -/
theorem export_two_decimals_cex :
    exportToExcel ("t") [sampleChemical] [] ≠
      joinSep ("\n") (claimedExportLines ("t") [sampleChemical] []) := by
  have h1 : toFixed2 sampleChemical.currentBalance = "5.00" := by
    show toFixed2 (5 : ℚ) = "5.00"
    unfold toFixed2
    rw [rat_floor_eq_intFloor]
    norm_num
    decide
  simp only [claimedExportLines, claimedChemicalCells, List.map_cons,
    List.map_nil, h1]
  decide

/-- C4 amended: the export document is exactly the line sequence: title line,
generation line, blank, inventory section header, inventory column header, one
row per lot (name, balance and quantity rendered by default number-to-string,
unit, supplier, dates, location, remark, every field quoted), blank, usage
section header, usage column header, and one quoted row per usage event. -/
theorem export_structure (genTime : String) (chemicals : List Chemical)
    (usageHistory : List ChemicalUsage) :
    exportToExcel genTime chemicals usageHistory =
      joinSep ("\n") (amendedExportLines genTime chemicals usageHistory) := by
  have h := joinSep_blocks ("\n") ("CHEMICAL INVENTORY REPORT")
    ("Generated on: " ++ genTime) ("") ("CURRENT INVENTORY:") ("")
    ("USAGE HISTORY:") (joinSep (",") chemicalHeaders)
    (joinSep (",") usageHeaders)
    (chemicals.map (fun c => csvRow (chemicalCells c)))
    (usageHistory.map (fun u => csvRow (usageCells u)))
  unfold exportToExcel amendedExportLines chemicalCSV usageCSV
  simp only [List.append_assoc, List.cons_append, List.nil_append] at h ⊢
  exact h
